import Mathlib

/-!
Verification development for the voice assistant conversation controller of
the bill-buddy application (src/src/components/VoiceAssistant.tsx and its
host page src/src/pages/Index.tsx).

The controller is a small state machine driven by final speech transcripts.
We embed its state (activeField, conversationStep, assistantMessage,
listening flag, search results, scheduled timeout continuations) and its
event handlers as pure Lean functions, with side effects reified as an
ordered effect list.  String pattern matching mirrors the JavaScript
regular expressions used by the source (alternation tried left to right
with backtracking, word boundaries, greedy digit runs) restricted to the
ASCII alphabet, which covers every keyword and trigger the source uses.
-/

namespace BillBuddy

/-- ASCII decimal digit test, mirroring the regex class backslash-d. -/
def isDigitCh (c : Char) : Bool := decide (48 ≤ c.toNat ∧ c.toNat ≤ 57)

/-- ASCII letter test. -/
def isLetterCh (c : Char) : Bool :=
  decide ((65 ≤ c.toNat ∧ c.toNat ≤ 90) ∨ (97 ≤ c.toNat ∧ c.toNat ≤ 122))

/-- Word character in the sense of the regex class backslash-w:
ASCII letters, digits and underscore. -/
def isWordCh (c : Char) : Bool := isLetterCh c || isDigitCh c || decide (c = '_')

/-- Whitespace in the sense of the regex class backslash-s (ASCII part). -/
def isSpaceCh (c : Char) : Bool :=
  decide (c = ' ' ∨ c = '\t' ∨ c = '\n' ∨ c = '\r')

/-- ASCII lower-casing of one character, mirroring what
String.prototype.toLowerCase does on the ASCII inputs the controller sees. -/
def lowChar (c : Char) : Char :=
  if 65 ≤ c.toNat ∧ c.toNat ≤ 90 then Char.ofNat (c.toNat + 32) else c

/-- Lower-case a character list. -/
def lowerL (s : List Char) : List Char := s.map lowChar

/-- Lower-case a string (model of transcript.toLowerCase()). -/
def lowerS (s : String) : String := String.mk (lowerL s.data)

/-- Containment of a needle as a contiguous substring of a haystack,
mirroring String.prototype.includes. -/
def containsSub : List Char → List Char → Bool
  | n, [] => n.isEmpty
  | n, c :: rest => n.isPrefixOf (c :: rest) || containsSub n rest

/-- One alternative of the filler regex matches at the start of `s`:
the alternative (already lower case) is a prefix of the lower-cased
input and is followed by at least one whitespace character.  This is the
per-alternative success condition of the source patterns
`^(alt1|alt2|...)\s+` with the ignore-case flag. -/
def fillerMatch (alt : List Char) (s : List Char) : Bool :=
  alt.isPrefixOf (lowerL s) &&
    (match s.drop alt.length with
     | [] => false
     | c :: _ => isSpaceCh c)

/-- Model of `input.replace(/^(alt1|alt2|...)\s+/i, "")`: the regex engine
tries the alternatives left to right and strips the first one that matches
together with the following whitespace run; when none matches the input is
returned unchanged. -/
def stripFiller (alts : List (List Char)) (s : List Char) : List Char :=
  match alts.find? (fun a => fillerMatch a s) with
  | some a => (s.drop a.length).dropWhile isSpaceCh
  | none => s

/-- Boolean test used to phrase theorems: some filler alternative matches
at the start of the input. -/
def hasFiller (alts : List String) (s : String) : Bool :=
  (alts.map String.data).any (fun a => fillerMatch a s.data)

/-- String-level filler stripping. -/
def stripFillerS (alts : List String) (s : String) : String :=
  String.mk (stripFiller (alts.map String.data) s.data)

/-- Filler alternatives of handleCustomerName, in source order. -/
def nameFillers : List String :=
  ["name is", "this is", "it\x27s", "its", "the name is", "customer name is",
   "customer is", "customer", "name", "my name is"]

/-- Filler alternatives of handleVehicleInfo, in source order. -/
def vehicleFillers : List String :=
  ["vehicle is", "it\x27s", "its", "the vehicle is", "vehicle info is",
   "vehicle information is", "vehicle", "info", "information"]

/-- Filler alternatives of handleProductSearch, in source order. -/
def productFillers : List String :=
  ["product is", "it\x27s", "its", "the product is", "product name is",
   "name is", "search for", "find", "look for", "product"]

/-- Success of one word-boundary alternative at the current position: the
keyword is a prefix of the remaining characters and the character after it,
if any, is not a word character.  All keywords used by the source start and
end with word characters, so the closing boundary is exactly this test. -/
def wordHereAt (w : List Char) (cs : List Char) : Bool :=
  w.isPrefixOf cs &&
    (match cs.drop w.length with
     | [] => true
     | c :: _ => !isWordCh c)

/-- Scan of the input for a word-boundary occurrence of the keyword,
tracking whether the previous character is a word character (the opening
boundary condition). -/
def containsWordFrom (w : List Char) (prevWord : Bool) : List Char → Bool
  | [] => false
  | c :: rest =>
    (!prevWord && wordHereAt w (c :: rest)) || containsWordFrom w (isWordCh c) rest

/-- Model of `s.match(/\bw\b/i) != null` for one literal keyword `w`. -/
def containsWord (s w : String) : Bool :=
  containsWordFrom (lowerL w.data) false (lowerL s.data)

/-- Affirmative keywords of handleBillConfirmation, in source order. -/
def affirmWords : List String :=
  ["yes", "yeah", "yep", "sure", "ok", "okay", "of course", "certainly",
   "add", "more"]

/-- Terminal keywords of handleBillConfirmation, in source order. -/
def termWords : List String :=
  ["no", "nope", "done", "finish", "complete", "generate", "create bill"]

/-- Model of the affirmative test
`response.match(/\b(yes|yeah|...)\b/i)`. -/
def isAffirmative (s : String) : Bool := affirmWords.any (containsWord s)

/-- Model of the terminal test
`response.match(/\b(no|nope|...)\b/i)`. -/
def isTerminalKw (s : String) : Bool := termWords.any (containsWord s)

/-- Word alternatives of the ordinal regex in handleProductSelection, in
source order. -/
def ordinalAlts : List (List Char) :=
  (["first", "1st", "one", "second", "2nd", "two", "third", "3rd", "three",
    "fourth", "4th", "four", "fifth", "5th", "five"]).map String.data

/-- Attempt to match the ordinal regex
`/\b(first|1st|...|five)\b|(\d+)/i` at the current position: the
word-boundary alternatives are tried first, in order; when they all fail a
greedy digit run (which carries no boundary requirement) is tried. -/
def ordTryAt (prevWord : Bool) (cs : List Char) : Option (List Char) :=
  match ordinalAlts.find? (fun w => !prevWord && wordHereAt w cs) with
  | some w => some w
  | none =>
    let ds := cs.takeWhile isDigitCh
    if ds.isEmpty then none else some ds

/-- Leftmost match of the ordinal regex: positions are scanned left to
right and the first position with a match wins, as in
String.prototype.match without the global flag. -/
def ordFind (prevWord : Bool) : List Char → Option (List Char)
  | [] => none
  | c :: rest =>
    match ordTryAt prevWord (c :: rest) with
    | some m => some m
    | none => ordFind (isWordCh c) rest

/-- Value table of the switch on the matched ordinal word. -/
def ordinalPairs : List (List Char × Nat) :=
  [("first".data, 0), ("1st".data, 0), ("one".data, 0),
   ("second".data, 1), ("2nd".data, 1), ("two".data, 1),
   ("third".data, 2), ("3rd".data, 2), ("three".data, 2),
   ("fourth".data, 3), ("4th".data, 3), ("four".data, 3),
   ("fifth".data, 4), ("5th".data, 4), ("five".data, 4)]

/-- Index assigned to a matched ordinal word by the switch in
handleProductSelection; `none` falls through to the numeric default case. -/
def ordinalValue (m : List Char) : Option Nat :=
  (ordinalPairs.find? (fun p => p.1 == m)).map (fun p => p.2)

/-- Numeric value of a digit character. -/
def digitVal (c : Char) : Nat := c.toNat - 48

/-- Model of parseInt on a run of decimal digits. -/
def natOfDigits (ds : List Char) : Nat :=
  ds.foldl (fun a c => a * 10 + digitVal c) 0

/-- Model of the selectedIndex computation of handleProductSelection:
`-1` when no token is recognized or the numeric default case fails its
bound check `num > 0 && num <= searchResults.length`. -/
def selIndex (input : String) (count : Nat) : Int :=
  match ordFind false (lowerL input.data) with
  | none => -1
  | some m =>
    match ordinalValue m with
    | some i => (i : Int)
    | none =>
      let num := natOfDigits m
      if 0 < num ∧ num ≤ count then (num : Int) - 1 else -1

/-- Form field values of the conversation flow (type FormField of the
source). -/
inductive FormField
  | customer_name
  | vehicle_info
  | product_search
  | add_product
  | confirm_bill
deriving DecidableEq, Repr

/-- Scheduled timeout continuations.  Each constructor corresponds to one
setTimeout call site of the source: the deferred dispatch inside
handleConversationInput, the results-settle timeout inside
handleProductSearch, the message reset after bill generation, the
navigation timeout of the command dispatcher, and the delayed automatic
start of the conversation flow on the destination page. -/
inductive Cont
  | dispatchInput (input : String)
  | searchSettle
  | resetMessage
  | navSettle
  | autoStart
deriving DecidableEq, Repr

/-- Observable side effects, reified in emission order. -/
inductive Effect
  | stopListeningE
  | startListeningE
  | speak (text : String)
  | onFieldUpdate (field : FormField) (value : String)
  | onProductSearchE (query : String)
  | onProductSelect (idx : Nat)
  | onCommand (cmd : String)
  | navigateE (url : String)
  | resetTranscriptE
deriving DecidableEq, Repr

/-- Controller state: the React state of the VoiceAssistant component
together with the listening flag of the speech-recognition hook, the
overlay activity flag of the host page, the searchResults prop and the
outstanding setTimeout continuations. -/
structure AState where
  activeField : Option FormField
  conversationStep : Nat
  assistantMessage : String
  listening : Bool
  assistantActive : Bool
  processingCommand : Bool
  searchResults : List String
  pending : List Cont
deriving DecidableEq, Repr

/-- Message shown while idle. -/
def msgHowHelp : String := "How can I help you?"

/-- Initial prompt of the conversation flow. -/
def promptName : String := "What is the customer\x27s name?"

/-- Prompt on entering add_product with results. -/
def msgFoundProducts : String :=
  "I found some products. Which one would you like to add?"

/-- Prompt when the settle timeout finds no results. -/
def msgNoProducts : String :=
  "I couldn\x27t find any products matching that description. Please try another search."

/-- Clarifying prompt on an unrecognized selection. -/
def msgWhichRetry : String :=
  "I\x27m not sure which product you meant. Please try again, saying first, second, etc."

/-- Prompt on looping back for another product. -/
def msgAddNext : String := "What product would you like to add next?"

/-- Displayed message of the terminal transition. -/
def msgGenerating : String := "Generating the bill now..."

/-- Clarifying prompt on an unrecognized confirmation answer. -/
def msgClarifyConfirm : String :=
  "Please say yes to add more products or no to generate the bill."

/-- Message and spoken text of the command dispatcher on a trigger match. -/
def navMsg : String := "Creating a new bill. Let me take you to the sales page."

/-- Model of startConversationFlow. -/
def startConversationFlowM (s : AState) : AState × List Effect :=
  ({ s with activeField := some .customer_name, conversationStep := 1,
            assistantMessage := promptName, listening := true },
   [Effect.speak promptName, Effect.startListeningE])

/-- Model of handleCustomerName: strip filler words, push the field update,
prompt for the vehicle, advance to vehicle_info / step 2 and resume
listening. -/
def handleCustomerName (s : AState) (name : String) : AState × List Effect :=
  let cleanName := stripFillerS nameFillers name
  let msg := "Customer name set to " ++ cleanName ++ ". What is the vehicle information?"
  ({ s with assistantMessage := msg, activeField := some .vehicle_info,
            conversationStep := 2, listening := true },
   [Effect.onFieldUpdate .customer_name cleanName, Effect.speak msg,
    Effect.startListeningE])

/-- Model of handleVehicleInfo. -/
def handleVehicleInfo (s : AState) (info : String) : AState × List Effect :=
  let cleanInfo := stripFillerS vehicleFillers info
  let msg := "Vehicle information set to " ++ cleanInfo ++ ". What product would you like to add?"
  ({ s with assistantMessage := msg, activeField := some .product_search,
            conversationStep := 3, listening := true },
   [Effect.onFieldUpdate .vehicle_info cleanInfo, Effect.speak msg,
    Effect.startListeningE])

/-- Model of handleProductSearch: strip filler words, push the search
request and schedule the results-settle timeout.  The searchResults prop is
read when that timeout fires (the source comment: after search results are
available, handled by the parent component). -/
def handleProductSearch (s : AState) (product : String) : AState × List Effect :=
  let cleanProduct := stripFillerS productFillers product
  ({ s with assistantMessage := "Searching for " ++ cleanProduct ++ "...",
            pending := s.pending ++ [Cont.searchSettle] },
   [Effect.onProductSearchE cleanProduct,
    Effect.speak ("Searching for " ++ cleanProduct)])

/-- Model of the body of the settle timeout inside handleProductSearch. -/
def runSearchSettle (s : AState) : AState × List Effect :=
  if 0 < s.searchResults.length then
    ({ s with activeField := some .add_product,
              assistantMessage := msgFoundProducts, listening := true },
     [Effect.speak msgFoundProducts, Effect.startListeningE])
  else
    ({ s with activeField := some .product_search,
              assistantMessage := msgNoProducts, listening := true },
     [Effect.speak msgNoProducts, Effect.startListeningE])

/-- Model of handleProductSelection: parse an ordinal or number, validate
it against the result count, and either select the product and advance to
confirm_bill / step 4, or re-prompt leaving activeField and
conversationStep untouched. -/
def handleProductSelection (s : AState) (sel : String) : AState × List Effect :=
  let si := selIndex sel s.searchResults.length
  if 0 ≤ si ∧ si < (s.searchResults.length : Int) then
    let i := si.toNat
    let pname0 := (s.searchResults.get? i).getD ""
    let productName := if pname0 = "" then "product" else pname0
    let msg := "Added " ++ productName ++ " to the cart. Would you like to add another product?"
    ({ s with assistantMessage := msg, activeField := some .confirm_bill,
              conversationStep := 4, listening := true },
     [Effect.onProductSelect i, Effect.speak msg, Effect.startListeningE])
  else
    ({ s with assistantMessage := msgWhichRetry, listening := true },
     [Effect.speak msgWhichRetry, Effect.startListeningE])

/-- Model of handleBillConfirmation: the affirmative keyword test is
evaluated first, then the terminal keyword test, then the clarification
fallback.  The terminal branch speaks, emits the generate_bill command,
resets activeField and conversationStep and schedules the display reset;
it does not resume listening. -/
def handleBillConfirmation (s : AState) (response : String) : AState × List Effect :=
  if isAffirmative response then
    ({ s with assistantMessage := msgAddNext, activeField := some .product_search,
              conversationStep := 3, listening := true },
     [Effect.speak msgAddNext, Effect.startListeningE])
  else if isTerminalKw response then
    ({ s with assistantMessage := msgGenerating, activeField := none,
              conversationStep := 0,
              pending := s.pending ++ [Cont.resetMessage] },
     [Effect.speak "Generating the bill now", Effect.onCommand "generate_bill"])
  else
    ({ s with assistantMessage := msgClarifyConfirm, listening := true },
     [Effect.speak msgClarifyConfirm, Effect.startListeningE])

/-- Trigger phrases of the command dispatcher, in source order. -/
def triggerPhrases : List String :=
  ["bill banao", "create bill", "sell product", "create a sell bill", "sell bill"]

/-- Containment test of the dispatcher: some trigger phrase occurs anywhere
in the lower-cased transcript. -/
def hasTrigger (t : String) : Bool :=
  triggerPhrases.any (fun p => containsSub p.data (lowerL t.data))

/-- Abstract command classification of the dispatcher. -/
inductive Command
  | startSale
deriving DecidableEq, Repr

/-- Classification of an idle-mode transcript against the trigger grammar. -/
def classify (t : String) : Option Command :=
  if hasTrigger t then some .startSale else none

/-- Run one scheduled continuation.  The dispatch continuation switches on
the current activeField exactly as the switch inside
handleConversationInput does; navSettle performs the navigation to
/sell-products?assistant=true and, when the auto-start conditions of the
destination effect hold (assistant active, step 0, no active field),
schedules the delayed startConversationFlow. -/
def runCont (s : AState) : Cont → AState × List Effect
  | .dispatchInput input =>
    match s.activeField with
    | none => (s, [])
    | some .customer_name => handleCustomerName s input
    | some .vehicle_info => handleVehicleInfo s input
    | some .product_search => handleProductSearch s input
    | some .add_product => handleProductSelection s input
    | some .confirm_bill => handleBillConfirmation s input
  | .searchSettle => runSearchSettle s
  | .resetMessage => ({ s with assistantMessage := msgHowHelp }, [])
  | .navSettle =>
    let s1 : AState := { s with processingCommand := false }
    if s1.assistantActive = true ∧ s1.conversationStep = 0 ∧ s1.activeField = none then
      ({ s1 with pending := s1.pending ++ [Cont.autoStart] },
       [Effect.navigateE "/sell-products?assistant=true"])
    else (s1, [Effect.navigateE "/sell-products?assistant=true"])
  | .autoStart => startConversationFlowM s

/-- External events: a final transcript from the speech-recognition hook,
the firing of a scheduled timeout, delivery of search results by the host
page, the close action of the host page (handleCloseAssistant), and the
activation of the overlay (handleActivateAssistant). -/
inductive Event
  | finalTranscript (t : String)
  | fire (c : Cont)
  | provideResults (rs : List String)
  | closeAssistant
  | activate
deriving DecidableEq, Repr

/-- One event step of the model.

A final transcript is ignored unless listening with nonempty text; in
conversation mode it stops listening and schedules the deferred dispatch of
the lower-cased transcript; in idle mode a trigger match stops listening,
speaks the navigation message and schedules the navigation timeout, and
anything else is ignored.  A timeout may fire only while it is pending.
Closing the assistant (handleCloseAssistant of Index.tsx) stops listening,
resets the transcript and deactivates the overlay - and nothing else: it
does not touch activeField, conversationStep or the pending timeouts. -/
def stepM (s : AState) : Event → AState × List Effect
  | .finalTranscript t =>
    if s.listening = false ∨ t = "" then (s, [])
    else
      match s.activeField with
      | some _ =>
        ({ s with listening := false,
                  pending := s.pending ++ [Cont.dispatchInput (lowerS t)] },
         [Effect.stopListeningE])
      | none =>
        if hasTrigger t then
          ({ s with listening := false, processingCommand := true,
                    assistantMessage := navMsg,
                    pending := s.pending ++ [Cont.navSettle] },
           [Effect.stopListeningE, Effect.speak navMsg])
        else (s, [])
  | .fire c =>
    if c ∈ s.pending then runCont { s with pending := s.pending.erase c } c
    else (s, [])
  | .provideResults rs => ({ s with searchResults := rs }, [])
  | .closeAssistant =>
    ({ s with listening := false, assistantActive := false },
     [Effect.stopListeningE, Effect.resetTranscriptE])
  | .activate =>
    ({ s with assistantActive := true, listening := true },
     [Effect.startListeningE])

/-- Run a list of events, concatenating the emitted effects. -/
def run : AState → List Event → AState × List Effect
  | s, [] => (s, [])
  | s, e :: es =>
    let r := stepM s e
    let r2 := run r.1 es
    (r2.1, r.2 ++ r2.2)

/-- States reached after each successive event. -/
def statesOf : AState → List Event → List AState
  | _, [] => []
  | s, e :: es =>
    let s1 := (stepM s e).1
    s1 :: statesOf s1 es

/-- Initial state: idle, inactive, empty results, nothing scheduled. -/
def initS : AState :=
  { activeField := none, conversationStep := 0, assistantMessage := msgHowHelp,
    listening := false, assistantActive := false, processingCommand := false,
    searchResults := [], pending := [] }

/-- State at the start of the conversation flow: overlay active and
startConversationFlow has run. -/
def convStart : AState :=
  (startConversationFlowM { initS with assistantActive := true }).1

/-- Selection indices reported in an effect list. -/
def selectedIndices (fx : List Effect) : List Nat :=
  fx.filterMap (fun e => match e with
    | .onProductSelect i => some i
    | _ => none)

/-- Number of generate_bill command emissions in an effect list. -/
def generateCount (fx : List Effect) : Nat :=
  (fx.filter (fun e => e = Effect.onCommand "generate_bill")).length

/-- Event sequence of the end-to-end sale scenario: the five final
transcripts, the firing of their deferred dispatches, the delivery of two
search results by the host page (Modelled from the spec: the host page
that owns the product catalog and passes searchResults back into the
component is not among the given sources) and the firing of the
results-settle timeout. -/
def c1Events : List Event :=
  [ .finalTranscript "my name is Raj",
    .fire (.dispatchInput "my name is raj"),
    .finalTranscript "Honda Activa 2020",
    .fire (.dispatchInput "honda activa 2020"),
    .finalTranscript "find brake pad",
    .fire (.dispatchInput "find brake pad"),
    .provideResults ["Brake Pad A", "Brake Pad B"],
    .fire .searchSettle,
    .finalTranscript "second",
    .fire (.dispatchInput "second"),
    .finalTranscript "no",
    .fire (.dispatchInput "no") ]

/-- Expected (activeField, conversationStep) after each scenario event. -/
def c1Expected : List (Option FormField × Nat) :=
  [(some .customer_name, 1), (some .vehicle_info, 2),
   (some .vehicle_info, 2), (some .product_search, 3),
   (some .product_search, 3), (some .product_search, 3),
   (some .product_search, 3), (some .add_product, 3),
   (some .add_product, 3), (some .confirm_bill, 4),
   (some .confirm_bill, 4), (none, 0)]

/-- Concrete state in the confirm_bill step with two search results. -/
def confirmState : AState :=
  { initS with activeField := some .confirm_bill, conversationStep := 4,
               searchResults := ["Brake Pad A", "Brake Pad B"],
               listening := true, assistantActive := true }

/-- Concrete state in the add_product step with two search results. -/
def addState : AState :=
  { initS with activeField := some .add_product, conversationStep := 3,
               searchResults := ["Brake Pad A", "Brake Pad B"],
               listening := true, assistantActive := true }

/-- Idle state with the overlay active and listening, as after
handleActivateAssistant. -/
def idleActive : AState :=
  { initS with assistantActive := true, listening := true }

/-- Event sequence of the idle-mode dispatch scenario: trigger transcript,
navigation timeout, delayed automatic conversation start. -/
def c8Events : List Event :=
  [ .finalTranscript "create a sell bill", .fire .navSettle, .fire .autoStart ]

/-- Iterated processing of the same conversational input. -/
def iterInput (inp : String) : Nat → AState → AState
  | 0, s => s
  | n + 1, s => iterInput inp n (runCont s (.dispatchInput inp)).1

/-- C1: starting from the CustomerName state, the transcripts "my name is
Raj", "Honda Activa 2020", "find brake pad" (the external search then
supplying exactly two results), "second" and "no" drive activeField
through CustomerName, VehicleInfo, ProductSearch, AddProduct, ConfirmBill
and back to the idle state, invoke onProductSelect with index 1 exactly
once, and emit exactly one generate_bill command. -/
theorem c1_sale_scenario :
    (statesOf convStart c1Events).map (fun s => (s.activeField, s.conversationStep)) =
      c1Expected ∧
    selectedIndices (run convStart c1Events).2 = [1] ∧
    generateCount (run convStart c1Events).2 = 1 ∧
    (run convStart c1Events).1.activeField = none ∧
    (run convStart c1Events).1.conversationStep = 0 ∧
    convStart.activeField = some FormField.customer_name ∧
    convStart.conversationStep = 1 := by
  exact ⟨rfl, rfl, rfl, rfl, rfl, rfl, rfl⟩

/-- C9: stripping the filler of "my name is John" yields "John"; a string
on which no filler alternative matches is returned unchanged; hence a
second application to an already-stripped value with no recognized filler
changes nothing. -/
theorem c9_strip_filler :
    stripFillerS nameFillers "my name is John" = "John" ∧
    (∀ (alts : List String) (s : String),
       hasFiller alts s = false → stripFillerS alts s = s) ∧
    (∀ (alts : List String) (s : String),
       hasFiller alts (stripFillerS alts s) = false →
       stripFillerS alts (stripFillerS alts s) = stripFillerS alts s) := by
  have hunch : ∀ (alts : List String) (s : String),
      hasFiller alts s = false → stripFillerS alts s = s := by
    intro alts s h
    have hall : ∀ a ∈ alts.map String.data, ¬ fillerMatch a s.data = true := by
      intro a ha hma
      have : (alts.map String.data).any (fun a => fillerMatch a s.data) = true :=
        List.any_eq_true.mpr ⟨a, ha, hma⟩
      rw [hasFiller] at h
      simp [this] at h
    unfold stripFillerS stripFiller
    rw [List.find?_eq_none.mpr hall]
  exact ⟨rfl, hunch, fun alts s h => hunch alts _ h⟩

/-- Witness for C9 at the concrete already-stripped input "brake pad". -/
theorem c9_strip_filler_witness :
    hasFiller nameFillers "brake pad" = false ∧
    stripFillerS nameFillers "brake pad" = "brake pad" :=
  ⟨by decide, c9_strip_filler.2.1 nameFillers "brake pad" (by decide)⟩

/-- C10: in the confirm_bill state the affirmative keyword test runs
before the terminal keyword test, so an input containing keywords of both
kinds loops back to product_search and emits no generate_bill command. -/
theorem c10_affirmative_priority (s : AState) (inp : String)
    (hf : s.activeField = some FormField.confirm_bill)
    (ha : isAffirmative inp = true) (_ht : isTerminalKw inp = true) :
    (runCont s (.dispatchInput inp)).1.activeField = some FormField.product_search ∧
    (runCont s (.dispatchInput inp)).1.conversationStep = 3 ∧
    generateCount (runCont s (.dispatchInput inp)).2 = 0 := by
  simp [runCont, hf, handleBillConfirmation, ha, generateCount]

/-- Witness for C10 at the input "no, add one more", which contains the
terminal keyword "no" and the affirmative keywords "add" and "more". -/
theorem c10_affirmative_priority_witness :
    isAffirmative "no, add one more" = true ∧
    isTerminalKw "no, add one more" = true ∧
    ((runCont confirmState (.dispatchInput "no, add one more")).1.activeField =
       some FormField.product_search ∧
     (runCont confirmState (.dispatchInput "no, add one more")).1.conversationStep = 3 ∧
     generateCount (runCont confirmState (.dispatchInput "no, add one more")).2 = 0) :=
  ⟨by decide, by decide,
   c10_affirmative_priority confirmState "no, add one more" rfl (by decide) (by decide)⟩

/-- Counterexample to C3: the input "no add more" contains the terminal
keyword "no", yet the controller loops back to product_search and emits no
generate_bill command, because the affirmative test fires first. -/
theorem c3_counterexample :
    isTerminalKw "no add more" = true ∧
    (runCont confirmState (.dispatchInput "no add more")).1.activeField =
      some FormField.product_search ∧
    (runCont confirmState (.dispatchInput "no add more")).1.conversationStep = 3 ∧
    generateCount (runCont confirmState (.dispatchInput "no add more")).2 = 0 ∧
    ¬ (runCont confirmState (.dispatchInput "no add more")).1.activeField = none := by
  exact ⟨by decide, by decide, by decide, by decide, by decide⟩

/-- C3 as amended: in the confirm_bill state an input containing an
affirmative keyword always goes to product_search with step 3 and no
generate_bill emission; an input containing a terminal keyword and no
affirmative keyword emits generate_bill exactly once and resets
conversationStep to 0 and activeField to none. -/
theorem c3_confirm_branches (s : AState) (inp : String)
    (hf : s.activeField = some FormField.confirm_bill) :
    (isAffirmative inp = true →
       (runCont s (.dispatchInput inp)).1.activeField = some FormField.product_search ∧
       (runCont s (.dispatchInput inp)).1.conversationStep = 3 ∧
       generateCount (runCont s (.dispatchInput inp)).2 = 0) ∧
    (isAffirmative inp = false → isTerminalKw inp = true →
       (runCont s (.dispatchInput inp)).1.activeField = none ∧
       (runCont s (.dispatchInput inp)).1.conversationStep = 0 ∧
       generateCount (runCont s (.dispatchInput inp)).2 = 1) := by
  constructor
  · intro ha
    simp [runCont, hf, handleBillConfirmation, ha, generateCount]
  · intro ha ht
    simp [runCont, hf, handleBillConfirmation, ha, ht, generateCount]

/-- Witness for C3 (amended) on the inputs "yes" and "no". -/
theorem c3_confirm_branches_witness :
    ((runCont confirmState (.dispatchInput "yes")).1.activeField =
       some FormField.product_search ∧
     (runCont confirmState (.dispatchInput "yes")).1.conversationStep = 3 ∧
     generateCount (runCont confirmState (.dispatchInput "yes")).2 = 0) ∧
    ((runCont confirmState (.dispatchInput "no")).1.activeField = none ∧
     (runCont confirmState (.dispatchInput "no")).1.conversationStep = 0 ∧
     generateCount (runCont confirmState (.dispatchInput "no")).2 = 1) :=
  ⟨(c3_confirm_branches confirmState "yes" rfl).1 (by decide),
   (c3_confirm_branches confirmState "no" rfl).2 (by decide) (by decide)⟩

/-- Counterexample to C5: closing the assistant mid product_search leaves
activeField at product_search and conversationStep at 3 instead of
resetting them, keeps the scheduled results-settle continuation pending,
and when that continuation later fires it still speaks a prompt and
restarts listening. -/
theorem c5_counterexample :
    (run convStart ((c1Events.take 6) ++ [Event.closeAssistant])).1.activeField =
      some FormField.product_search ∧
    (run convStart ((c1Events.take 6) ++ [Event.closeAssistant])).1.conversationStep = 3 ∧
    Cont.searchSettle ∈ (run convStart ((c1Events.take 6) ++ [Event.closeAssistant])).1.pending ∧
    (stepM (run convStart ((c1Events.take 6) ++ [Event.closeAssistant])).1
        (.fire .searchSettle)).2 =
      [Effect.speak msgNoProducts, Effect.startListeningE] := by
  exact ⟨rfl, rfl, by decide, rfl⟩

/-- C5 as amended: the close action stops listening, resets the transcript
and deactivates the overlay, and nothing else: activeField,
conversationStep and every pending scheduled continuation survive the
close, no speech cancellation is performed, and a surviving continuation
still emits its prompt when it fires. -/
theorem c5_close_behavior (s : AState) :
    stepM s .closeAssistant =
      ({ s with listening := false, assistantActive := false },
       [Effect.stopListeningE, Effect.resetTranscriptE]) ∧
    (stepM s .closeAssistant).1.activeField = s.activeField ∧
    (stepM s .closeAssistant).1.conversationStep = s.conversationStep ∧
    (stepM s .closeAssistant).1.pending = s.pending := by
  exact ⟨rfl, rfl, rfl, rfl⟩

/-- Witness for C5 at the concrete add_product state. -/
theorem c5_close_behavior_witness :
    stepM addState .closeAssistant =
      ({ addState with listening := false, assistantActive := false },
       [Effect.stopListeningE, Effect.resetTranscriptE]) ∧
    (stepM addState .closeAssistant).1.activeField = addState.activeField ∧
    (stepM addState .closeAssistant).1.conversationStep = addState.conversationStep ∧
    (stepM addState .closeAssistant).1.pending = addState.pending :=
  c5_close_behavior addState

/-- C8: in idle mode the classification fires startSale exactly when some
trigger phrase occurs as a substring of the lower-cased transcript (shown
in particular on "please create bill now", which equals none of the
trigger phrases); a transcript without a trigger produces no
classification and leaves the state untouched; and the transcript
"create a sell bill" leads, after the navigation timeout and the delayed
automatic start, to the customer_name state. -/
theorem c8_idle_classification :
    classify "create a sell bill" = some Command.startSale ∧
    classify "please create bill now" = some Command.startSale ∧
    ("please create bill now" ∈ triggerPhrases → False) ∧
    (∀ t : String, hasTrigger t = false → classify t = none) ∧
    (∀ (s : AState) (t : String), s.activeField = none → hasTrigger t = false →
       stepM s (.finalTranscript t) = (s, [])) ∧
    ((run idleActive c8Events).1.activeField = some FormField.customer_name ∧
     (run idleActive c8Events).1.conversationStep = 1 ∧
     (run idleActive c8Events).2 =
       [Effect.stopListeningE, Effect.speak navMsg,
        Effect.navigateE "/sell-products?assistant=true",
        Effect.speak promptName, Effect.startListeningE]) := by
  refine ⟨rfl, rfl, by decide, ?_, ?_, rfl, rfl, rfl⟩
  · intro t h
    simp [classify, h]
  · intro s t hf h
    simp [stepM, hf, h]

/-- Witness for C8 at the trigger-free transcript "hello there". -/
theorem c8_idle_classification_witness :
    classify "hello there" = none ∧
    stepM idleActive (.finalTranscript "hello there") = (idleActive, []) :=
  ⟨c8_idle_classification.2.2.2.1 "hello there" (by decide),
   c8_idle_classification.2.2.2.2.1 idleActive "hello there" rfl (by decide)⟩

/-- C7: an unrecognized input in add_product (no ordinal accepted) or in
confirm_bill (neither keyword set matched) leaves activeField and
conversationStep unchanged after any number of repetitions, and each
repetition displays a fixed non-empty clarifying prompt. -/
theorem c7_soft_retry :
    (∀ (s : AState) (inp : String), s.activeField = some FormField.add_product →
       ¬ (0 ≤ selIndex inp s.searchResults.length ∧
          selIndex inp s.searchResults.length < (s.searchResults.length : Int)) →
       ∀ n : Nat,
         (iterInput inp n s).activeField = s.activeField ∧
         (iterInput inp n s).conversationStep = s.conversationStep ∧
         (0 < n → (iterInput inp n s).assistantMessage = msgWhichRetry)) ∧
    (∀ (s : AState) (inp : String), s.activeField = some FormField.confirm_bill →
       isAffirmative inp = false → isTerminalKw inp = false →
       ∀ n : Nat,
         (iterInput inp n s).activeField = s.activeField ∧
         (iterInput inp n s).conversationStep = s.conversationStep ∧
         (0 < n → (iterInput inp n s).assistantMessage = msgClarifyConfirm)) ∧
    msgWhichRetry ≠ "" ∧ msgClarifyConfirm ≠ "" := by
  have hsel : ∀ (s : AState) (inp : String),
      s.activeField = some FormField.add_product →
      ¬ (0 ≤ selIndex inp s.searchResults.length ∧
         selIndex inp s.searchResults.length < (s.searchResults.length : Int)) →
      (runCont s (.dispatchInput inp)).1 =
        { s with assistantMessage := msgWhichRetry, listening := true } := by
    intro s inp hf hr
    simp [runCont, hf, handleProductSelection, if_neg hr]
  have hcon : ∀ (s : AState) (inp : String),
      s.activeField = some FormField.confirm_bill →
      isAffirmative inp = false → isTerminalKw inp = false →
      (runCont s (.dispatchInput inp)).1 =
        { s with assistantMessage := msgClarifyConfirm, listening := true } := by
    intro s inp hf ha ht
    simp [runCont, hf, handleBillConfirmation, ha, ht]
  refine ⟨?_, ?_, by decide, by decide⟩
  · intro s inp hf hr n
    induction n generalizing s with
    | zero => exact ⟨rfl, rfl, by omega⟩
    | succ n ih =>
      have hstep := hsel s inp hf hr
      have ih' := ih { s with assistantMessage := msgWhichRetry, listening := true }
        hf hr
      rw [iterInput, hstep]
      refine ⟨ih'.1, ih'.2.1, fun _ => ?_⟩
      rcases Nat.eq_zero_or_pos n with h0 | hpos
      · subst h0; rfl
      · exact ih'.2.2 hpos
  · intro s inp hf ha ht n
    induction n generalizing s with
    | zero => exact ⟨rfl, rfl, by omega⟩
    | succ n ih =>
      have hstep := hcon s inp hf ha ht
      have ih' := ih { s with assistantMessage := msgClarifyConfirm, listening := true }
        hf
      rw [iterInput, hstep]
      refine ⟨ih'.1, ih'.2.1, fun _ => ?_⟩
      rcases Nat.eq_zero_or_pos n with h0 | hpos
      · subst h0; rfl
      · exact ih'.2.2 hpos

/-- Witness for C7 on the inputs "seventh" (no recognized ordinal among
two results) and "maybe" (neither affirmative nor terminal), iterated
twice. -/
theorem c7_soft_retry_witness :
    ((iterInput "seventh" 2 addState).activeField = addState.activeField ∧
     (iterInput "seventh" 2 addState).conversationStep = addState.conversationStep ∧
     (iterInput "seventh" 2 addState).assistantMessage = msgWhichRetry) ∧
    ((iterInput "maybe" 2 confirmState).activeField = confirmState.activeField ∧
     (iterInput "maybe" 2 confirmState).conversationStep = confirmState.conversationStep ∧
     (iterInput "maybe" 2 confirmState).assistantMessage = msgClarifyConfirm) := by
  have h1 := c7_soft_retry.1 addState "seventh" rfl (by decide) 2
  have h2 := c7_soft_retry.2.1 confirmState "maybe" rfl (by decide) (by decide) 2
  exact ⟨⟨h1.1, h1.2.1, h1.2.2 (by decide)⟩, ⟨h2.1, h2.2.1, h2.2.2 (by decide)⟩⟩

/-- Helper: a word containing a non-digit character is never a prefix of an
all-digit character list. -/
theorem not_prefixOf_digits {w ds : List Char} {c : Char} (hcw : c ∈ w)
    (hcd : isDigitCh c = false) (hds : ∀ x ∈ ds, isDigitCh x = true) :
    w.isPrefixOf ds = false := by
  cases hval : w.isPrefixOf ds with
  | false => rfl
  | true =>
    have hpre : w <+: ds := List.isPrefixOf_iff_prefix.mp hval
    have hx := hds c (hpre.subset hcw)
    rw [hcd] at hx
    exact (Bool.false_ne_true hx).elim

/-- Helper: every ordinal word alternative contains a non-digit character. -/
theorem ordinalAlts_nondigit :
    ∀ w ∈ ordinalAlts, ∃ c, c ∈ w ∧ isDigitCh c = false := by decide

/-- Helper: every entry of the ordinal switch table contains a non-digit
character. -/
theorem ordinalPairs_nondigit :
    ∀ p ∈ ordinalPairs, ∃ c, c ∈ p.1 ∧ isDigitCh c = false := by decide

/-- Helper: digits are unchanged by ASCII lower-casing. -/
theorem lowerL_digits {ds : List Char} (h : ∀ c ∈ ds, isDigitCh c = true) :
    lowerL ds = ds := by
  induction ds with
  | nil => rfl
  | cons c rest ih =>
    have hc := h c (List.mem_cons_self c rest)
    have hc' := of_decide_eq_true hc
    have hlow : lowChar c = c := by
      unfold lowChar
      rw [if_neg]
      omega
    simp only [lowerL, List.map_cons, hlow]
    have := ih (fun x hx => h x (List.mem_cons_of_mem c hx))
    simp only [lowerL] at this
    rw [this]

/-- Helper: the ordinal regex on a nonempty all-digit input matches the
whole input via the digit-run alternative. -/
theorem ordFind_digits {ds : List Char} (hne : ds ≠ [])
    (h : ∀ c ∈ ds, isDigitCh c = true) : ordFind false ds = some ds := by
  cases ds with
  | nil => exact absurd rfl hne
  | cons c rest =>
    have hnone : ordinalAlts.find? (fun w => !false && wordHereAt w (c :: rest)) = none := by
      rw [List.find?_eq_none]
      intro w hw hcontra
      obtain ⟨x, hxw, hxd⟩ := ordinalAlts_nondigit w hw
      have hpf := not_prefixOf_digits hxw hxd h
      simp [wordHereAt, hpf] at hcontra
    have htake : (c :: rest).takeWhile isDigitCh = c :: rest :=
      List.takeWhile_eq_self_iff.mpr h
    rw [ordFind, ordTryAt, hnone, htake]
    simp

/-- Helper: an all-digit token falls through the ordinal switch to the
numeric default case. -/
theorem ordinalValue_digits {ds : List Char} (h : ∀ c ∈ ds, isDigitCh c = true) :
    ordinalValue ds = none := by
  unfold ordinalValue
  rw [List.find?_eq_none.mpr]
  · rfl
  · intro p hp hcontra
    obtain ⟨x, hxp, hxd⟩ := ordinalPairs_nondigit p hp
    have : p.1 = ds := by
      have := of_decide_eq_true (by simpa using hcontra)
      exact this
    rw [this] at hxp
    have := h x hxp
    rw [hxd] at this
    exact Bool.false_ne_true this

/-- Helper: the selection index computed for a nonempty all-digit input is
the parsed number validated against the result count, as in the numeric
default case of handleProductSelection. -/
theorem selIndex_digits {ds : List Char} (hne : ds ≠ [])
    (h : ∀ c ∈ ds, isDigitCh c = true) (n : Nat) :
    selIndex (String.mk ds) n =
      if 0 < natOfDigits ds ∧ natOfDigits ds ≤ n then (natOfDigits ds : Int) - 1
      else -1 := by
  have h1 : selIndex (String.mk ds) n =
      (match ordinalValue ds with
       | some i => (i : Int)
       | none =>
         if 0 < natOfDigits ds ∧ natOfDigits ds ≤ n then (natOfDigits ds : Int) - 1
         else -1) := by
    unfold selIndex
    rw [lowerL_digits h, ordFind_digits hne h]
  rw [h1, ordinalValue_digits h]

/-- C4: among at least one result the inputs "first", "1st", "one" and "1"
all select index 0; among at least two results "second", "2nd", "two" and
"2" all select index 1; a nonempty literal digit string with value N maps
to index N-1 when N is within the result count and is rejected otherwise;
and in the add_product state a parsed index at or beyond the result count
leaves activeField and conversationStep unchanged while an in-range index
is reported through onProductSelect and advances to confirm_bill. -/
theorem c4_ordinal_selection :
    (∀ n : Nat, 1 ≤ n →
       selIndex "first" n = 0 ∧ selIndex "1st" n = 0 ∧
       selIndex "one" n = 0 ∧ selIndex "1" n = 0) ∧
    (∀ n : Nat, 2 ≤ n →
       selIndex "second" n = 1 ∧ selIndex "2nd" n = 1 ∧
       selIndex "two" n = 1 ∧ selIndex "2" n = 1) ∧
    (∀ (ds : List Char) (n : Nat), ds ≠ [] → (∀ c ∈ ds, isDigitCh c = true) →
       0 < natOfDigits ds →
       (natOfDigits ds ≤ n →
          selIndex (String.mk ds) n = (natOfDigits ds : Int) - 1) ∧
       (n < natOfDigits ds → selIndex (String.mk ds) n = -1)) ∧
    (∀ (s : AState) (inp : String), s.activeField = some FormField.add_product →
       (s.searchResults.length : Int) ≤ selIndex inp s.searchResults.length →
       (runCont s (.dispatchInput inp)).1.activeField = s.activeField ∧
       (runCont s (.dispatchInput inp)).1.conversationStep = s.conversationStep) ∧
    (∀ (s : AState) (inp : String), s.activeField = some FormField.add_product →
       0 ≤ selIndex inp s.searchResults.length →
       selIndex inp s.searchResults.length < (s.searchResults.length : Int) →
       selectedIndices (runCont s (.dispatchInput inp)).2 =
         [(selIndex inp s.searchResults.length).toNat] ∧
       (runCont s (.dispatchInput inp)).1.activeField = some FormField.confirm_bill ∧
       (runCont s (.dispatchInput inp)).1.conversationStep = 4) := by
  have hdig : ∀ (ds : List Char) (n : Nat), ds ≠ [] →
      (∀ c ∈ ds, isDigitCh c = true) → 0 < natOfDigits ds →
      (natOfDigits ds ≤ n →
         selIndex (String.mk ds) n = (natOfDigits ds : Int) - 1) ∧
      (n < natOfDigits ds → selIndex (String.mk ds) n = -1) := by
    intro ds n hne hd hpos
    constructor
    · intro hle
      rw [selIndex_digits hne hd, if_pos ⟨hpos, hle⟩]
    · intro hgt
      rw [selIndex_digits hne hd, if_neg]
      omega
  refine ⟨?_, ?_, hdig, ?_, ?_⟩
  · intro n hn
    refine ⟨rfl, rfl, rfl, ?_⟩
    have h1 := (hdig ['1'] n (by decide) (by decide) (by decide)).1 hn
    simpa using h1
  · intro n hn
    refine ⟨rfl, rfl, rfl, ?_⟩
    have h2 := (hdig ['2'] n (by decide) (by decide) (by decide)).1 hn
    simpa using h2
  · intro s inp hf hge
    have hrej : ¬ (0 ≤ selIndex inp s.searchResults.length ∧
        selIndex inp s.searchResults.length < (s.searchResults.length : Int)) := by
      omega
    simp [runCont, hf, handleProductSelection, if_neg hrej]
  · intro s inp hf h0 hlt
    simp [runCont, hf, handleProductSelection, h0, hlt, selectedIndices]

/-- Witness for C4 on concrete inputs: "first" and "7" among enough
results, "fifth" among only two results (rejected), and "second" accepted
at the concrete add_product state. -/
theorem c4_ordinal_selection_witness :
    (selIndex "first" 2 = 0 ∧ selIndex "1" 2 = 0) ∧
    selIndex (String.mk ['7']) 9 = 6 ∧
    ((runCont addState (.dispatchInput "fifth")).1.activeField = addState.activeField ∧
     (runCont addState (.dispatchInput "fifth")).1.conversationStep =
       addState.conversationStep) ∧
    (selectedIndices (runCont addState (.dispatchInput "second")).2 = [1] ∧
     (runCont addState (.dispatchInput "second")).1.activeField =
       some FormField.confirm_bill ∧
     (runCont addState (.dispatchInput "second")).1.conversationStep = 4) := by
  have ha := c4_ordinal_selection.1 2 (by decide)
  have hd := (c4_ordinal_selection.2.2.1 ['7'] 9 (by decide) (by decide) (by decide)).1
    (by decide)
  have hr := c4_ordinal_selection.2.2.2.1 addState "fifth" rfl (by decide)
  have hacc := c4_ordinal_selection.2.2.2.2 addState "second" rfl (by decide) (by decide)
  refine ⟨⟨ha.1, ha.2.2.2⟩, by simpa using hd, hr, ?_⟩
  have h1 : (selIndex "second" addState.searchResults.length).toNat = 1 := by decide
  simpa [h1] using hacc

/-- Counterexample to C6: processing "my name is raj" in the customer_name
state emits, in order, stopListening, then the onFieldUpdate callback,
then the spoken prompt, then startListening - the callback precedes the
prompt, not the claimed prompt-before-callback order. -/
theorem c6_counterexample :
    (run convStart (c1Events.take 2)).2 =
      [Effect.stopListeningE,
       Effect.onFieldUpdate FormField.customer_name "raj",
       Effect.speak "Customer name set to raj. What is the vehicle information?",
       Effect.startListeningE] ∧
    ¬ (run convStart (c1Events.take 2)).2 =
      [Effect.stopListeningE,
       Effect.speak "Customer name set to raj. What is the vehicle information?",
       Effect.onFieldUpdate FormField.customer_name "raj",
       Effect.startListeningE] := by
  exact ⟨rfl, by decide⟩

/-- C6 as amended: every non-terminal forward transition emits, in order,
(1) stopListening at transcript receipt, (2) the relevant external
callback, (3) the spoken prompt, (4) startListening - the callback comes
before the prompt, not after it; the product-search transition defers its
prompt-and-resume tail to the settle continuation; and the terminal
transition emits the spoken notice followed by the generate_bill command,
never resuming listening. -/
theorem c6_effect_order :
    (∀ (s : AState) (t : String) (f : FormField), s.listening = true → t ≠ "" →
       s.activeField = some f →
       stepM s (.finalTranscript t) =
         ({ s with listening := false,
                   pending := s.pending ++ [Cont.dispatchInput (lowerS t)] },
          [Effect.stopListeningE])) ∧
    (∀ (s : AState) (inp : String), s.activeField = some FormField.customer_name →
       (runCont s (.dispatchInput inp)).2 =
         [Effect.onFieldUpdate .customer_name (stripFillerS nameFillers inp),
          Effect.speak ("Customer name set to " ++ stripFillerS nameFillers inp ++
            ". What is the vehicle information?"),
          Effect.startListeningE] ∧
       (runCont s (.dispatchInput inp)).1.listening = true) ∧
    (∀ (s : AState) (inp : String), s.activeField = some FormField.vehicle_info →
       (runCont s (.dispatchInput inp)).2 =
         [Effect.onFieldUpdate .vehicle_info (stripFillerS vehicleFillers inp),
          Effect.speak ("Vehicle information set to " ++ stripFillerS vehicleFillers inp ++
            ". What product would you like to add?"),
          Effect.startListeningE] ∧
       (runCont s (.dispatchInput inp)).1.listening = true) ∧
    (∀ (s : AState) (inp : String), s.activeField = some FormField.product_search →
       (runCont s (.dispatchInput inp)).2 =
         [Effect.onProductSearchE (stripFillerS productFillers inp),
          Effect.speak ("Searching for " ++ stripFillerS productFillers inp)] ∧
       (runCont s (.dispatchInput inp)).1.pending = s.pending ++ [Cont.searchSettle]) ∧
    (∀ s : AState, 0 < s.searchResults.length →
       (runSearchSettle s).2 = [Effect.speak msgFoundProducts, Effect.startListeningE] ∧
       (runSearchSettle s).1.listening = true) ∧
    (∀ (s : AState) (inp : String), s.activeField = some FormField.add_product →
       0 ≤ selIndex inp s.searchResults.length →
       selIndex inp s.searchResults.length < (s.searchResults.length : Int) →
       ∃ m : String,
         (runCont s (.dispatchInput inp)).2 =
           [Effect.onProductSelect (selIndex inp s.searchResults.length).toNat,
            Effect.speak m, Effect.startListeningE]) ∧
    (∀ (s : AState) (inp : String), s.activeField = some FormField.confirm_bill →
       isAffirmative inp = false → isTerminalKw inp = true →
       (runCont s (.dispatchInput inp)).2 =
         [Effect.speak "Generating the bill now", Effect.onCommand "generate_bill"] ∧
       ¬ Effect.startListeningE ∈ (runCont s (.dispatchInput inp)).2 ∧
       (runCont s (.dispatchInput inp)).1.activeField = none) := by
  refine ⟨?_, ?_, ?_, ?_, ?_, ?_, ?_⟩
  · intro s t f hl ht hf
    simp [stepM, hl, ht, hf]
  · intro s inp hf
    simp [runCont, hf, handleCustomerName]
  · intro s inp hf
    simp [runCont, hf, handleVehicleInfo]
  · intro s inp hf
    simp [runCont, hf, handleProductSearch]
  · intro s hres
    simp [runSearchSettle, hres]
  · intro s inp hf h0 hlt
    refine ⟨"Added " ++
      (if (s.searchResults.get? (selIndex inp s.searchResults.length).toNat).getD "" = ""
       then "product"
       else (s.searchResults.get? (selIndex inp s.searchResults.length).toNat).getD "") ++
      " to the cart. Would you like to add another product?", ?_⟩
    simp [runCont, hf, handleProductSelection, h0, hlt]
  · intro s inp hf ha ht
    simp [runCont, hf, handleBillConfirmation, ha, ht]

/-- Witness for C6 at the concrete customer_name transition and the
concrete terminal transition. -/
theorem c6_effect_order_witness :
    ((runCont convStart (.dispatchInput "my name is raj")).2 =
       [Effect.onFieldUpdate .customer_name "raj",
        Effect.speak "Customer name set to raj. What is the vehicle information?",
        Effect.startListeningE] ∧
     (runCont convStart (.dispatchInput "my name is raj")).1.listening = true) ∧
    ((runCont confirmState (.dispatchInput "no")).2 =
       [Effect.speak "Generating the bill now", Effect.onCommand "generate_bill"] ∧
     ¬ Effect.startListeningE ∈ (runCont confirmState (.dispatchInput "no")).2 ∧
     (runCont confirmState (.dispatchInput "no")).1.activeField = none) := by
  have h1 := c6_effect_order.2.1 convStart "my name is raj" rfl
  have h2 := c6_effect_order.2.2.2.2.2.2 confirmState "no" rfl (by decide) (by decide)
  exact ⟨by simpa using h1, h2⟩

/-- Counterexample to C2: on the ProductSearch to AddProduct transition of
the concrete scenario run, conversationStep stays at 3 instead of
increasing by exactly 1. -/
theorem c2_counterexample :
    (run convStart (c1Events.take 6)).1.activeField = some FormField.product_search ∧
    (run convStart (c1Events.take 6)).1.conversationStep = 3 ∧
    (run convStart (c1Events.take 8)).1.activeField = some FormField.add_product ∧
    (run convStart (c1Events.take 8)).1.conversationStep = 3 ∧
    ¬ (run convStart (c1Events.take 8)).1.conversationStep =
        (run convStart (c1Events.take 6)).1.conversationStep + 1 := by
  exact ⟨rfl, rfl, rfl, rfl, by decide⟩

/-- C2 as amended: starting the flow sets step 1; the CustomerName,
VehicleInfo and AddProduct transitions set steps 2, 3 and 4; the
ProductSearch to AddProduct transition leaves the step unchanged; the
terminal transition resets step to 0 and activeField to none; closing the
assistant changes neither; and the equivalence step = 0 iff activeField =
none is preserved by every conversational dispatch and, given that the
settle continuation fires in the product_search state, by the settle
transition. -/
theorem c2_step_discipline :
    (∀ s : AState, (startConversationFlowM s).1.conversationStep = 1 ∧
       (startConversationFlowM s).1.activeField = some FormField.customer_name) ∧
    (∀ (s : AState) (inp : String), s.activeField = some FormField.customer_name →
       (runCont s (.dispatchInput inp)).1.conversationStep = 2 ∧
       (runCont s (.dispatchInput inp)).1.activeField = some FormField.vehicle_info) ∧
    (∀ (s : AState) (inp : String), s.activeField = some FormField.vehicle_info →
       (runCont s (.dispatchInput inp)).1.conversationStep = 3 ∧
       (runCont s (.dispatchInput inp)).1.activeField = some FormField.product_search) ∧
    (∀ (s : AState) (inp : String), s.activeField = some FormField.product_search →
       (runCont s (.dispatchInput inp)).1.conversationStep = s.conversationStep ∧
       (runCont s (.dispatchInput inp)).1.activeField = s.activeField) ∧
    (∀ s : AState, 0 < s.searchResults.length →
       (runSearchSettle s).1.conversationStep = s.conversationStep ∧
       (runSearchSettle s).1.activeField = some FormField.add_product) ∧
    (∀ (s : AState) (inp : String), s.activeField = some FormField.add_product →
       0 ≤ selIndex inp s.searchResults.length →
       selIndex inp s.searchResults.length < (s.searchResults.length : Int) →
       (runCont s (.dispatchInput inp)).1.conversationStep = 4 ∧
       (runCont s (.dispatchInput inp)).1.activeField = some FormField.confirm_bill) ∧
    (∀ (s : AState) (inp : String), s.activeField = some FormField.confirm_bill →
       isAffirmative inp = false → isTerminalKw inp = true →
       (runCont s (.dispatchInput inp)).1.conversationStep = 0 ∧
       (runCont s (.dispatchInput inp)).1.activeField = none) ∧
    (∀ s : AState, (stepM s .closeAssistant).1.conversationStep = s.conversationStep ∧
       (stepM s .closeAssistant).1.activeField = s.activeField) ∧
    (∀ (s : AState) (inp : String),
       (s.conversationStep = 0 ↔ s.activeField = none) →
       ((runCont s (.dispatchInput inp)).1.conversationStep = 0 ↔
        (runCont s (.dispatchInput inp)).1.activeField = none)) ∧
    (∀ s : AState, (s.conversationStep = 0 ↔ s.activeField = none) →
       s.activeField = some FormField.product_search →
       ((runSearchSettle s).1.conversationStep = 0 ↔
        (runSearchSettle s).1.activeField = none)) := by
  refine ⟨?_, ?_, ?_, ?_, ?_, ?_, ?_, ?_, ?_, ?_⟩
  · intro s; exact ⟨rfl, rfl⟩
  · intro s inp hf; simp [runCont, hf, handleCustomerName]
  · intro s inp hf; simp [runCont, hf, handleVehicleInfo]
  · intro s inp hf; simp [runCont, hf, handleProductSearch]
  · intro s hres; simp [runSearchSettle, hres]
  · intro s inp hf h0 hlt; simp [runCont, hf, handleProductSelection, h0, hlt]
  · intro s inp hf ha ht; simp [runCont, hf, handleBillConfirmation, ha, ht]
  · intro s; exact ⟨rfl, rfl⟩
  · intro s inp hiff
    cases hf : s.activeField with
    | none =>
      have hrun : runCont s (.dispatchInput inp) = (s, []) := by simp [runCont, hf]
      rw [hrun]
      exact hiff
    | some f =>
      have hne : ¬ s.conversationStep = 0 := by
        intro h0
        have hnone := hiff.mp h0
        rw [hf] at hnone
        exact Option.noConfusion hnone
      cases f with
      | customer_name => simp [runCont, hf, handleCustomerName]
      | vehicle_info => simp [runCont, hf, handleVehicleInfo]
      | product_search => simp [runCont, hf, handleProductSearch, hne]
      | add_product =>
        by_cases hacc : 0 ≤ selIndex inp s.searchResults.length ∧
            selIndex inp s.searchResults.length < (s.searchResults.length : Int)
        · simp [runCont, hf, handleProductSelection, hacc]
        · simp [runCont, hf, handleProductSelection, hacc, hne]
      | confirm_bill =>
        by_cases ha : isAffirmative inp = true
        · simp [runCont, hf, handleBillConfirmation, ha]
        · by_cases ht : isTerminalKw inp = true
          · simp [runCont, hf, handleBillConfirmation, ha, ht]
          · simp [runCont, hf, handleBillConfirmation, ha, ht, hne]
  · intro s hiff hf
    have hne : ¬ s.conversationStep = 0 := by
      intro h0
      have hnone := hiff.mp h0
      rw [hf] at hnone
      exact Option.noConfusion hnone
    by_cases hres : 0 < s.searchResults.length
    · simp [runSearchSettle, hres, hne]
    · simp [runSearchSettle, hres, hne]

/-- Witness for C2 at concrete states: the customer_name transition from
the scenario start, the settle transition with two results, and invariant
preservation at the concrete confirm_bill state. -/
theorem c2_step_discipline_witness :
    ((runCont convStart (.dispatchInput "my name is raj")).1.conversationStep = 2 ∧
     (runCont convStart (.dispatchInput "my name is raj")).1.activeField =
       some FormField.vehicle_info) ∧
    ((runSearchSettle addState).1.conversationStep = addState.conversationStep ∧
     (runSearchSettle addState).1.activeField = some FormField.add_product) ∧
    ((runCont confirmState (.dispatchInput "yes")).1.conversationStep = 0 ↔
     (runCont confirmState (.dispatchInput "yes")).1.activeField = none) := by
  refine ⟨c2_step_discipline.2.1 convStart "my name is raj" rfl, ?_, ?_⟩
  · exact c2_step_discipline.2.2.2.2.1 addState (by decide)
  · exact c2_step_discipline.2.2.2.2.2.2.2.2.1 confirmState "yes" (by decide)

end BillBuddy
